import Mathlib

/-
Shallow embedding of the casabot speech-to-text bridge
(src/rootfs/usr/share/casabot/).

* `handler.py` — `AzureOpenAISttEventHandler`: the per-connection session
  state machine.  Its mutable state is the pair
  (`audio_buffer : io.BytesIO`, `audio_bytes_left : int`); we model the
  buffer as the list of bytes it holds.  `handle_event` consumes a Wyoming
  protocol event and returns a boolean "continue serving" signal while
  possibly writing response events with `write_event`; we model one call to
  `handle_event` as a pure step producing the new state, the list of events
  written, the returned boolean, and the list of audio payloads submitted
  to the backend during the step.

* `config_validator.py` — the `azure_openai_api_version` branch of
  `validate_configuration` (lines 104–107), which appends an error string
  when `re.match(r"\d{4}-\d{2}-\d{2}", api_version)` fails.

The external Azure OpenAI call (`self.client.audio.transcriptions.create`)
is the only free parameter: it is modelled as a function from the model
name, the optional language parameter and the audio bytes to either an
exception (`Except.error` with the exception text) or a response, the
response being `none` when it is absent or lacks a `text` attribute and
`some t` when its `text` attribute holds the string `t`.
-/

namespace Casabot

/-- A byte of audio data.  The handler never inspects byte values, so plain
naturals suffice. -/
abbrev Byte := Nat

/-- Python truthiness of an `Optional[str]` value: `None` and `""` are
falsy, every other string is truthy. -/
def strTruthy : Option String → Bool
  | some t => !(t == "")
  | none => false

/-- The Python method `str.strip()` called with no argument: remove whitespace characters
from both ends of the string. -/
def pyStrip (s : String) : String :=
  ⟨((s.data.dropWhile Char.isWhitespace).reverse.dropWhile Char.isWhitespace).reverse⟩

/-- The configuration fields of `cli_args` read by `_transcribe_audio`
(handler.py lines 136 and 141–142). -/
structure CliArgs where
  model : String
  language : String
deriving DecidableEq

/-- The optional `language` entry added to `transcribe_params`
(handler.py lines 141–142): present iff `cli_args["language"]` is truthy
and differs from `"auto"`. -/
def languageParam (args : CliArgs) : Option String :=
  if args.language ≠ "" ∧ args.language ≠ "auto" then some args.language else none

/-- The external transcription service
(`self.client.audio.transcriptions.create`): given the model name, the
optional language parameter and the audio bytes, either raises
(`Except.error` carrying `str(e)`) or returns a response, modelled as
`none` (no response / no `text` attribute) or `some t` (`response.text`
equals `t`, possibly empty). -/
def Backend : Type := String → Option String → List Byte → Except String (Option String)

/-- The mutable per-session state of `AzureOpenAISttEventHandler`
(handler.py lines 33–35): the bytes held by `self.audio_buffer` and the
counter `self.audio_bytes_left`. -/
structure HandlerState where
  audio_buffer : List Byte
  audio_bytes_left : Nat
deriving DecidableEq

/-- State after `__init__` (handler.py lines 34–35): empty buffer, zero
counter. -/
def initState : HandlerState := ⟨[], 0⟩

/-- Inbound Wyoming events, by the branches of `handle_event`.
`audioStart` carries rate/width/channels and `audioChunk` additionally a
payload; the handler only logs the former and only reads the payload of
the latter, so we keep just the payload.  `transcribe` is the direct
single-shot request; `other` stands for every unrecognized event type. -/
inductive WEvent where
  | audioStart
  | audioChunk (audio : List Byte)
  | audioStop
  | transcribe
  | other
deriving DecidableEq

/-- Outbound events produced with `write_event`. -/
inductive OutEvent where
  | transcript (text : String)
  | error (text : String) (context : String)
deriving DecidableEq

/-- Result of `_transcribe_audio` (handler.py lines 117–162): the returned
`Optional[str]` or the re-raised exception, together with the list of
audio payloads passed to the backend during the call. -/
structure TranscribeOutcome where
  result : Except String (Option String)
  submitted : List (List Byte)

/-- Model of `_transcribe_audio` (handler.py lines 117–162).  Empty audio returns
`None` without calling the backend; audio below 1024 bytes returns `None`
without calling the backend; otherwise the backend is called once and a
truthy `response.text` yields `response.text.strip()` (which may be empty
when the text was all whitespace), anything else yields `None`; a backend
exception is re-raised. -/
def transcribeAudio (args : CliArgs) (backend : Backend) (audio_data : List Byte) :
    TranscribeOutcome :=
  if audio_data.isEmpty then ⟨.ok none, []⟩
  else if audio_data.length < 1024 then ⟨.ok none, []⟩
  else
    match backend args.model (languageParam args) audio_data with
    | .ok response =>
        if strTruthy response then
          ⟨.ok (some (pyStrip (response.getD ""))), [audio_data]⟩
        else ⟨.ok none, [audio_data]⟩
    | .error e => ⟨.error e, [audio_data]⟩

/-- One call to `handle_event` observed externally: the state afterwards,
the events written (in order), the returned boolean, and the audio
payloads submitted to the backend. -/
structure StepResult where
  state : HandlerState
  outputs : List OutEvent
  keepServing : Bool
  submitted : List (List Byte)
deriving DecidableEq

/-- Model of `handle_event` (handler.py lines 53–115).

* `AudioStart` (lines 56–64): replace the buffer by a fresh empty one and
  zero the counter.
* `AudioChunk` (lines 66–72): append the payload to the buffer and add its
  length to the counter.
* `AudioStop` (lines 74–108): read `self.audio_buffer.getvalue()` without
  mutating the buffer; if empty, write the "No audio data received" error;
  otherwise run `_transcribe_audio` and, on a truthy result, write a
  `Transcript`, on a falsy result the "No transcription result" error, and
  on an exception the "Transcription failed: ..." error.
* `Transcribe` (lines 110–113) and anything else (line 115): no effect.

Every branch returns `True`. -/
def handleEvent (args : CliArgs) (backend : Backend) (s : HandlerState)
    (event : WEvent) : StepResult :=
  match event with
  | .audioStart => ⟨⟨[], 0⟩, [], true, []⟩
  | .audioChunk audio =>
      ⟨⟨s.audio_buffer ++ audio, s.audio_bytes_left + audio.length⟩, [], true, []⟩
  | .audioStop =>
      let audio_data := s.audio_buffer
      if audio_data.isEmpty then
        ⟨s, [.error "No audio data received" "transcription"], true, []⟩
      else
        match transcribeAudio args backend audio_data with
        | ⟨.ok text, sub⟩ =>
            if strTruthy text then
              ⟨s, [.transcript (text.getD "")], true, sub⟩
            else
              ⟨s, [.error "No transcription result" "transcription"], true, sub⟩
        | ⟨.error e, sub⟩ =>
            ⟨s, [.error ("Transcription failed: " ++ e) "transcription"], true, sub⟩
  | .transcribe => ⟨s, [], true, []⟩
  | .other => ⟨s, [], true, []⟩

/-- The state after one `handle_event` call. -/
def stepState (args : CliArgs) (backend : Backend) (s : HandlerState)
    (event : WEvent) : HandlerState :=
  (handleEvent args backend s event).state

/-- The state after handling a sequence of `AudioChunk` events, one per
payload, in order. -/
def runChunks (args : CliArgs) (backend : Backend) (s : HandlerState)
    (chunks : List (List Byte)) : HandlerState :=
  chunks.foldl (fun st p => stepState args backend st (.audioChunk p)) s

/-- A full utterance cycle from state `s`: one `AudioStart`, the given
chunk payloads in order, then one `AudioStop`; the result of the final
`AudioStop` step. -/
def runCycle (args : CliArgs) (backend : Backend) (s : HandlerState)
    (chunks : List (List Byte)) : StepResult :=
  handleEvent args backend
    (runChunks args backend (stepState args backend s .audioStart) chunks) .audioStop

/-- Model of `re.match(r"\d{4}-\d{2}-\d{2}", s)` (config_validator.py
line 106) on the character list of `s`.  The Python function `re.match` anchors at
the start of the string only, so the match succeeds exactly when the
first ten characters are four digits, a hyphen, two digits, a hyphen and
two digits, with arbitrary characters allowed afterwards.  (The class
`\d` is modelled as an ASCII decimal digit.) -/
def reMatchDateL : List Char → Bool
  | c1 :: c2 :: c3 :: c4 :: c5 :: c6 :: c7 :: c8 :: c9 :: c10 :: _ =>
      c1.isDigit && c2.isDigit && c3.isDigit && c4.isDigit && c5 == '-' &&
      c6.isDigit && c7.isDigit && c8 == '-' && c9.isDigit && c10.isDigit
  | _ => false

/-- String-level wrapper of `reMatchDateL`. -/
def reMatchDate (s : String) : Bool := reMatchDateL s.data

/-- Written from the words of the spec, for comparison with the code: the
whole character list has the form `YYYY-MM-DD` — four digits, hyphen, two
digits, hyphen, two digits, and nothing else. -/
def specExactDateL : List Char → Bool
  | [c1, c2, c3, c4, c5, c6, c7, c8, c9, c10] =>
      c1.isDigit && c2.isDigit && c3.isDigit && c4.isDigit && c5 == '-' &&
      c6.isDigit && c7.isDigit && c8 == '-' && c9.isDigit && c10.isDigit
  | _ => false

/-- String-level wrapper of `specExactDateL`. -/
def specExactDateFormat (s : String) : Bool := specExactDateL s.data

/-- Model of the `azure_openai_api_version` branch of
`validate_configuration` (config_validator.py lines 104–107): the list of
error strings this branch appends for the given `api_version` value.  The
value is accepted (and startup proceeds past this check) exactly when the
list is empty; `__main__.py` lines 44–50 exit with status 1 whenever the
collected error list is non-empty. -/
def apiVersionErrors (api_version : String) : List String :=
  if api_version.isEmpty || !(reMatchDate api_version) then
    ["Invalid API version format: " ++ api_version]
  else []

/-- Sample 1024-byte audio payload used by concrete witnesses. -/
def sampleAudio : List Byte := List.replicate 1024 0

/-- Sample session state holding `sampleAudio`. -/
def sampleState : HandlerState := ⟨sampleAudio, 1024⟩

/-- Sample configuration used by concrete witnesses. -/
def sampleArgs : CliArgs := ⟨"gpt-audio", "auto"⟩

/-- Sample backend whose response text is whitespace only. -/
def wsBackend : Backend := fun _ _ _ => .ok (some "   ")

/-- Sample backend whose response text is non-empty after stripping. -/
def helloBackend : Backend := fun _ _ _ => .ok (some " hello world ")

/-- Sample backend that raises. -/
def failBackend : Backend := fun _ _ _ => .error "connection refused"

/-! ### Helper lemmas -/

lemma isEmpty_false_of_ne_nil (l : List Byte) (h : l ≠ []) : l.isEmpty = false := by
  cases l with
  | nil => exact absurd rfl h
  | cons a t => rfl

lemma isEmpty_false_of_big (l : List Byte) (h : 1024 ≤ l.length) : l.isEmpty = false := by
  apply isEmpty_false_of_ne_nil
  intro hl
  rw [hl] at h
  simp at h

lemma transcribeAudio_small (args : CliArgs) (backend : Backend) (audio : List Byte)
    (h : audio.length < 1024) :
    transcribeAudio args backend audio = ⟨.ok none, []⟩ := by
  by_cases hne : audio.isEmpty = true
  · simp [transcribeAudio, hne]
  · simp [transcribeAudio, hne, h]

lemma transcribeAudio_big (args : CliArgs) (backend : Backend) (audio : List Byte)
    (h : 1024 ≤ audio.length) :
    transcribeAudio args backend audio =
      match backend args.model (languageParam args) audio with
      | .ok response =>
          if strTruthy response then ⟨.ok (some (pyStrip (response.getD ""))), [audio]⟩
          else ⟨.ok none, [audio]⟩
      | .error e => ⟨.error e, [audio]⟩ := by
  have hne : audio.isEmpty = false := isEmpty_false_of_big audio h
  have hnl : ¬ audio.length < 1024 := Nat.not_lt.mpr h
  simp [transcribeAudio, hne, hnl]

lemma handleEvent_stop_empty (args : CliArgs) (backend : Backend) (s : HandlerState)
    (h : s.audio_buffer = []) :
    handleEvent args backend s .audioStop =
      ⟨s, [.error "No audio data received" "transcription"], true, []⟩ := by
  simp [handleEvent, h]

lemma handleEvent_stop_small (args : CliArgs) (backend : Backend) (s : HandlerState)
    (h0 : s.audio_buffer ≠ []) (h : s.audio_buffer.length < 1024) :
    handleEvent args backend s .audioStop =
      ⟨s, [.error "No transcription result" "transcription"], true, []⟩ := by
  have hne := isEmpty_false_of_ne_nil _ h0
  simp [handleEvent, hne, transcribeAudio_small args backend _ h, strTruthy]

lemma handleEvent_stop_ok_some (args : CliArgs) (backend : Backend) (s : HandlerState)
    (t : String) (hlen : 1024 ≤ s.audio_buffer.length)
    (hb : backend args.model (languageParam args) s.audio_buffer = .ok (some t)) :
    handleEvent args backend s .audioStop =
      if pyStrip t = "" then
        ⟨s, [.error "No transcription result" "transcription"], true, [s.audio_buffer]⟩
      else ⟨s, [.transcript (pyStrip t)], true, [s.audio_buffer]⟩ := by
  have hne := isEmpty_false_of_big _ hlen
  simp only [handleEvent, hne, Bool.false_eq_true, if_false,
    transcribeAudio_big args backend _ hlen, hb]
  by_cases ht : t = ""
  · subst ht
    have htr : pyStrip "" = "" := rfl
    simp [strTruthy, htr]
  · by_cases htr : pyStrip t = ""
    · simp [strTruthy, ht, htr]
    · simp [strTruthy, ht, htr]

lemma handleEvent_stop_ok_none (args : CliArgs) (backend : Backend) (s : HandlerState)
    (hlen : 1024 ≤ s.audio_buffer.length)
    (hb : backend args.model (languageParam args) s.audio_buffer = .ok none) :
    handleEvent args backend s .audioStop =
      ⟨s, [.error "No transcription result" "transcription"], true, [s.audio_buffer]⟩ := by
  have hne := isEmpty_false_of_big _ hlen
  simp only [handleEvent, hne, Bool.false_eq_true, if_false,
    transcribeAudio_big args backend _ hlen, hb]
  simp [strTruthy]

lemma handleEvent_stop_error (args : CliArgs) (backend : Backend) (s : HandlerState)
    (e : String) (hlen : 1024 ≤ s.audio_buffer.length)
    (hb : backend args.model (languageParam args) s.audio_buffer = .error e) :
    handleEvent args backend s .audioStop =
      ⟨s, [.error ("Transcription failed: " ++ e) "transcription"], true,
        [s.audio_buffer]⟩ := by
  have hne := isEmpty_false_of_big _ hlen
  simp only [handleEvent, hne, Bool.false_eq_true, if_false,
    transcribeAudio_big args backend _ hlen, hb]

lemma handleEvent_keepServing (args : CliArgs) (backend : Backend) (s : HandlerState)
    (e : WEvent) : (handleEvent args backend s e).keepServing = true := by
  cases e <;> simp only [handleEvent]
  split
  · rfl
  · split
    · split <;> rfl
    · rfl

lemma handleEvent_stop_state (args : CliArgs) (backend : Backend) (s : HandlerState) :
    (handleEvent args backend s .audioStop).state = s := by
  simp only [handleEvent]
  split
  · rfl
  · split
    · split <;> rfl
    · rfl

lemma handleEvent_stop_submitted (args : CliArgs) (backend : Backend) (s : HandlerState) :
    (handleEvent args backend s .audioStop).submitted =
      if 1024 ≤ s.audio_buffer.length then [s.audio_buffer] else [] := by
  by_cases hlen : 1024 ≤ s.audio_buffer.length
  · rcases hb : backend args.model (languageParam args) s.audio_buffer with e | resp
    · rw [handleEvent_stop_error args backend s e hlen hb]
      simp [hlen]
    · rcases resp with _ | t
      · rw [handleEvent_stop_ok_none args backend s hlen hb]
        simp [hlen]
      · rw [handleEvent_stop_ok_some args backend s t hlen hb]
        split <;> simp [hlen]
  · have hl : s.audio_buffer.length < 1024 := Nat.not_le.mp hlen
    by_cases h0 : s.audio_buffer = []
    · rw [handleEvent_stop_empty args backend s h0]
      simp [hlen]
    · rw [handleEvent_stop_small args backend s h0 hl]
      simp [hlen]

lemma runChunks_buffer (args : CliArgs) (backend : Backend) (chunks : List (List Byte))
    (s : HandlerState) :
    (runChunks args backend s chunks).audio_buffer = s.audio_buffer ++ chunks.flatten := by
  induction chunks generalizing s with
  | nil => simp [runChunks]
  | cons p ps ih =>
      simp only [runChunks, List.foldl_cons] at *
      rw [ih]
      simp [stepState, handleEvent, List.append_assoc]

lemma specExactDateL_length (t : List Char) (h : specExactDateL t = true) :
    t.length = 10 := by
  unfold specExactDateL at h
  split at h
  · simp
  · cases h

lemma reMatchDateL_append (t rest : List Char) (h : specExactDateL t = true) :
    reMatchDateL (t ++ rest) = true := by
  unfold specExactDateL at h
  split at h
  · exact h
  · cases h

lemma reMatchDateL_iff (l : List Char) :
    reMatchDateL l = true ↔ ∃ t rest, l = t ++ rest ∧ specExactDateL t = true := by
  constructor
  · intro h
    unfold reMatchDateL at h
    split at h
    · next c1 c2 c3 c4 c5 c6 c7 c8 c9 c10 tail =>
        exact ⟨[c1, c2, c3, c4, c5, c6, c7, c8, c9, c10], tail, rfl, h⟩
    · cases h
  · rintro ⟨t, rest, rfl, ht⟩
    exact reMatchDateL_append t rest ht

lemma sampleState_big : 1024 ≤ sampleState.audio_buffer.length := by
  show 1024 ≤ (List.replicate 1024 (0 : Byte)).length
  rw [List.length_replicate]

/-! ### Claim theorems -/

/-- C1: for every sequence of audio-chunk events handled between a
start-of-stream event and the next end-of-stream event, the byte sequence
read from the buffer at end-of-stream equals the exact concatenation of
the chunk payloads in arrival order, and precisely when that
concatenation is non-empty and at least 1024 bytes long it is what gets
submitted to the backend. -/
theorem C1_lossless_ordered_buffering (args : CliArgs) (backend : Backend)
    (s0 : HandlerState) (chunks : List (List Byte)) :
    (runChunks args backend (stepState args backend s0 .audioStart) chunks).audio_buffer
        = chunks.flatten ∧
    (handleEvent args backend
        (runChunks args backend (stepState args backend s0 .audioStart) chunks)
        .audioStop).submitted =
      (if chunks.flatten ≠ [] ∧ 1024 ≤ chunks.flatten.length then [chunks.flatten]
       else []) := by
  have hbuf : (runChunks args backend (stepState args backend s0 .audioStart)
      chunks).audio_buffer = chunks.flatten := by
    rw [runChunks_buffer]
    rfl
  refine ⟨hbuf, ?_⟩
  rw [handleEvent_stop_submitted, hbuf]
  by_cases h : 1024 ≤ chunks.flatten.length
  · have hne : chunks.flatten ≠ [] := by
      intro hn
      rw [hn] at h
      simp at h
    rw [if_pos h, if_pos ⟨hne, h⟩]
  · rw [if_neg h, if_neg (fun hc => h hc.2)]

/-- C2: when the buffered audio is strictly between 0 and 1024 bytes,
handling an end-of-stream event never invokes the backend, writes exactly
one error event with text "No transcription result", leaves the state
unchanged and returns `True`. -/
theorem C2_small_nonempty_buffer (args : CliArgs) (backend : Backend)
    (s : HandlerState) (h0 : 0 < s.audio_buffer.length)
    (h1 : s.audio_buffer.length < 1024) :
    handleEvent args backend s .audioStop =
      ⟨s, [.error "No transcription result" "transcription"], true, []⟩ := by
  have hne : s.audio_buffer ≠ [] := by
    intro hn
    rw [hn] at h0
    simp at h0
  exact handleEvent_stop_small args backend s hne h1

/-- Witness for C2 at the one-byte buffer `[0]`. -/
theorem C2_small_nonempty_buffer_witness :
    0 < (HandlerState.mk [0] 1).audio_buffer.length ∧
    (HandlerState.mk [0] 1).audio_buffer.length < 1024 ∧
    handleEvent sampleArgs helloBackend ⟨[0], 1⟩ .audioStop =
      ⟨⟨[0], 1⟩, [.error "No transcription result" "transcription"], true, []⟩ :=
  ⟨by decide, by decide,
    C2_small_nonempty_buffer sampleArgs helloBackend ⟨[0], 1⟩ (by decide) (by decide)⟩

/-- C3 counterexample: with a 1024-byte buffer and a successful backend
call whose returned text is the non-empty whitespace string "   ",
`handle_event` writes exactly one error event and no transcript event,
whereas the claim as stated requires one transcript event carrying the
whitespace-trimmed text. -/
theorem C3_counterexample :
    wsBackend sampleArgs.model (languageParam sampleArgs) sampleState.audio_buffer
        = .ok (some "   ") ∧
    ("   " : String) ≠ "" ∧
    handleEvent sampleArgs wsBackend sampleState .audioStop =
      ⟨sampleState, [.error "No transcription result" "transcription"], true,
        [sampleAudio]⟩ := by
  refine ⟨rfl, by decide, ?_⟩
  rw [handleEvent_stop_ok_some sampleArgs wsBackend sampleState "   " sampleState_big rfl]
  have hstrip : pyStrip "   " = "" := by decide
  rw [if_pos hstrip]
  rfl

/-- C3 (amended): for every successful backend call, exactly one response
event is written per end-of-stream: when the returned text is non-empty
after removing surrounding whitespace, one transcript event carrying the
trimmed text; when the returned text is empty, whitespace-only or absent,
one error event with text "No transcription result" and no transcript
event. -/
theorem C3_success_exactly_one_event (args : CliArgs) (backend : Backend)
    (s : HandlerState) (resp : Option String)
    (hlen : 1024 ≤ s.audio_buffer.length)
    (hb : backend args.model (languageParam args) s.audio_buffer = .ok resp) :
    (handleEvent args backend s .audioStop).outputs =
      match resp with
      | some t =>
          if pyStrip t = "" then [.error "No transcription result" "transcription"]
          else [.transcript (pyStrip t)]
      | none => [.error "No transcription result" "transcription"] := by
  rcases resp with _ | t
  · rw [handleEvent_stop_ok_none args backend s hlen hb]
  · rw [handleEvent_stop_ok_some args backend s t hlen hb]
    by_cases htr : pyStrip t = "" <;> simp [htr]

/-- Witness for the amended C3: the backend text " hello world " produces
exactly one transcript event with the trimmed text "hello world". -/
theorem C3_success_exactly_one_event_witness :
    1024 ≤ sampleState.audio_buffer.length ∧
    (handleEvent sampleArgs helloBackend sampleState .audioStop).outputs
      = [.transcript "hello world"] := by
  refine ⟨sampleState_big, ?_⟩
  have h := C3_success_exactly_one_event sampleArgs helloBackend sampleState
      (some " hello world ") sampleState_big rfl
  rw [h]
  have hstrip : pyStrip " hello world " = "hello world" := by decide
  simp [hstrip]

/-- C4: when the backend call raises, handling the end-of-stream event
writes exactly one error event whose text contains the failure cause,
returns `True`, and a subsequent start/chunk/stop cycle from the
resulting state behaves exactly as from a fresh session, so the failure
is terminal only for that one utterance. -/
theorem C4_backend_failure_recoverable (args : CliArgs) (backend : Backend)
    (s : HandlerState) (e : String)
    (hlen : 1024 ≤ s.audio_buffer.length)
    (hb : backend args.model (languageParam args) s.audio_buffer = .error e) :
    (∃ pre, (handleEvent args backend s .audioStop).outputs
        = [.error (pre ++ e) "transcription"]) ∧
    (handleEvent args backend s .audioStop).keepServing = true ∧
    ∀ (args2 : CliArgs) (backend2 : Backend) (chunks : List (List Byte)),
      runCycle args2 backend2 (handleEvent args backend s .audioStop).state chunks
        = runCycle args2 backend2 initState chunks := by
  rw [handleEvent_stop_error args backend s e hlen hb]
  exact ⟨⟨"Transcription failed: ", rfl⟩, rfl, fun _ _ _ => rfl⟩

/-- Witness for C4 at a backend that raises "connection refused". -/
theorem C4_backend_failure_recoverable_witness :
    1024 ≤ sampleState.audio_buffer.length ∧
    (∃ pre, (handleEvent sampleArgs failBackend sampleState .audioStop).outputs
        = [.error (pre ++ "connection refused") "transcription"]) :=
  ⟨sampleState_big, (C4_backend_failure_recoverable sampleArgs failBackend sampleState
      "connection refused" sampleState_big rfl).1⟩

/-- C5: when the buffer is empty, handling an end-of-stream event never
invokes the backend, writes exactly one error event with text
"No audio data received", leaves the state unchanged and returns
`True`. -/
theorem C5_empty_buffer_error (args : CliArgs) (backend : Backend) (s : HandlerState)
    (h : s.audio_buffer = []) :
    handleEvent args backend s .audioStop =
      ⟨s, [.error "No audio data received" "transcription"], true, []⟩ :=
  handleEvent_stop_empty args backend s h

/-- Witness for C5 at the freshly constructed session state. -/
theorem C5_empty_buffer_error_witness :
    initState.audio_buffer = [] ∧
    handleEvent sampleArgs helloBackend initState .audioStop =
      ⟨initState, [.error "No audio data received" "transcription"], true, []⟩ :=
  ⟨rfl, C5_empty_buffer_error sampleArgs helloBackend initState rfl⟩

/-- C6: handling a start-of-stream event from any session state leaves
the buffer empty, and handling start-of-stream twice in a row yields the
same state as handling it once. -/
theorem C6_start_resets_idempotent (args : CliArgs) (backend : Backend)
    (s : HandlerState) :
    (stepState args backend s .audioStart).audio_buffer = [] ∧
    stepState args backend (stepState args backend s .audioStart) .audioStart
      = stepState args backend s .audioStart :=
  ⟨rfl, rfl⟩

/-- C8: handling an end-of-stream event leaves the session state (buffer
and byte counter) unchanged, so a second consecutive end-of-stream reads
the same byte sequence; only a start-of-stream resets the buffer. -/
theorem C8_stop_preserves_state (args : CliArgs) (backend : Backend)
    (s : HandlerState) :
    (handleEvent args backend s .audioStop).state = s ∧
    ((handleEvent args backend (handleEvent args backend s .audioStop).state
        .audioStop).state).audio_buffer = s.audio_buffer := by
  have h := handleEvent_stop_state args backend s
  refine ⟨h, ?_⟩
  rw [h, handleEvent_stop_state]

/-- C9: every inbound event makes `handle_event` return `True`, and both
the direct single-shot transcription request and any unrecognized event
type are acknowledged with no response event, no backend submission and
no state change. -/
theorem C9_always_continue (args : CliArgs) (backend : Backend) (s : HandlerState)
    (e : WEvent) :
    (handleEvent args backend s e).keepServing = true ∧
    handleEvent args backend s .transcribe = ⟨s, [], true, []⟩ ∧
    handleEvent args backend s .other = ⟨s, [], true, []⟩ :=
  ⟨handleEvent_keepServing args backend s e, rfl, rfl⟩

/-- C10: the invariant that `audio_bytes_left` equals the number of bytes
stored in the audio buffer holds after construction and is preserved by
handling every event. -/
theorem C10_counter_matches_buffer (args : CliArgs) (backend : Backend)
    (s : HandlerState) (e : WEvent)
    (h : s.audio_bytes_left = s.audio_buffer.length) :
    initState.audio_bytes_left = initState.audio_buffer.length ∧
    ((handleEvent args backend s e).state).audio_bytes_left
      = ((handleEvent args backend s e).state).audio_buffer.length := by
  refine ⟨rfl, ?_⟩
  cases e with
  | audioStart => rfl
  | audioChunk audio => simp [handleEvent, h]
  | audioStop =>
      rw [handleEvent_stop_state]
      exact h
  | transcribe => exact h
  | other => exact h

/-- Witness for C10 at a chunk event appended to the sample state. -/
theorem C10_counter_matches_buffer_witness :
    sampleState.audio_bytes_left = sampleState.audio_buffer.length ∧
    ((handleEvent sampleArgs helloBackend sampleState
        (.audioChunk [1, 2])).state).audio_bytes_left
      = ((handleEvent sampleArgs helloBackend sampleState
        (.audioChunk [1, 2])).state).audio_buffer.length := by
  have h : sampleState.audio_bytes_left = sampleState.audio_buffer.length := by
    show (1024 : Nat) = (List.replicate 1024 (0 : Byte)).length
    rw [List.length_replicate]
  exact ⟨h, (C10_counter_matches_buffer sampleArgs helloBackend sampleState
      (.audioChunk [1, 2]) h).2⟩

/-- C7 counterexample: the string "2024-02-01extra" is not of the exact
form YYYY-MM-DD, yet the validator accepts it (appends no error), so
validation does not accept the API version only when the entire string
has that form. -/
theorem C7_counterexample :
    apiVersionErrors "2024-02-01extra" = [] ∧
    specExactDateFormat "2024-02-01extra" = false := by
  constructor <;> decide

/-- C7 (amended): startup configuration validation accepts the API
version string if and only if it starts with YYYY-MM-DD — four digits,
hyphen, two digits, hyphen, two digits — with arbitrary trailing
characters permitted; any string not of that form is reported as a
configuration error (which makes startup exit non-zero). -/
theorem C7_api_version_accepts_any_dated_start (s : String) :
    apiVersionErrors s = [] ↔
      ∃ t rest, s.data = t ++ rest ∧ specExactDateL t = true := by
  rw [← reMatchDateL_iff]
  unfold apiVersionErrors
  constructor
  · intro h
    split at h
    · simp at h
    · next hcond =>
        simp only [Bool.or_eq_true, Bool.not_eq_true', not_or, reMatchDate] at hcond
        cases hm : reMatchDateL s.data
        · exact absurd hm hcond.2
        · rfl
  · intro h
    have hne : s.isEmpty = false := by
      cases hi : s.isEmpty
      · rfl
      · exfalso
        have hs : s = "" := (String.isEmpty_iff s).mp hi
        rw [hs] at h
        exact absurd h (by decide)
    simp [hne, reMatchDate, h]

end Casabot
